import Mathlib

/-!
Verification of the technical-indicator and signal-scoring engine of the
TradingView dashboard repository.  The Python pages compute indicator values
with pandas over a price history and fold them into discrete buy/sell
verdicts; this file embeds those computations over `ℚ`, using `Option ℚ` for
values that pandas represents as NaN (undefined indicator values before a
warm-up window, or 0/0 divisions).  Comparisons against NaN are `False` in
pandas, which is mirrored by boolean comparison helpers on `Option ℚ` that
return `false` when either side is `none`.
-/

unseal Rat.add Rat.sub Rat.mul Rat.inv Rat.ofScientific

set_option maxRecDepth 8192

/-! ## Basic series helpers -/

/-- Positive part of a delta, as used by `delta.where(delta > 0, 0)`. -/
def gainPart (x : ℚ) : ℚ := if 0 < x then x else 0

/-- Negative part of a delta, as used by `-delta.where(delta < 0, 0)`. -/
def lossPart (x : ℚ) : ℚ := if x < 0 then -x else 0

/-- Day-over-day differences of a series, `hist['Close'].diff()` without the
leading NaN entry: `deltas l` has length `l.length - 1`. -/
def deltas (l : List ℚ) : List ℚ := List.zipWith (fun a b => a - b) l.tail l

/-- The trailing `n` elements of a list (the window ending at the latest bar). -/
def lastN (n : ℕ) (l : List α) : List α := l.drop (l.length - n)

/-- Rolling mean evaluated at the latest index: `series.rolling(window=n).mean()`
taken at `iloc[-1]`.  Undefined (`none`, pandas NaN) when fewer than `n`
observations exist. -/
def rollMeanLast (n : ℕ) (l : List ℚ) : Option ℚ :=
  if l.length < n then none else some ((lastN n l).sum / n)

/-- Comparison `a > b` between two pandas values; any comparison against NaN
is `False` in pandas, hence `false` when either side is `none`. -/
def oGT : Option ℚ → Option ℚ → Bool
  | some a, some b => decide (b < a)
  | _, _ => false

/-- Comparison `a < b` with NaN treated as in pandas. -/
def oLT (a b : Option ℚ) : Bool := oGT b a

/-- Comparison `a ≤ b` with NaN treated as in pandas. -/
def oLE : Option ℚ → Option ℚ → Bool
  | some a, some b => decide (a ≤ b)
  | _, _ => false

/-- Comparison `a ≥ b` with NaN treated as in pandas. -/
def oGE (a b : Option ℚ) : Bool := oLE b a

/-! ## RSI(14)

All four pages compute RSI the same way:
```
delta = hist['Close'].diff()
gain = (delta.where(delta > 0, 0)).rolling(window=14).mean()
loss = (-delta.where(delta < 0, 0)).rolling(window=14).mean()
rs = gain / loss
hist['RSI'] = 100 - (100 / (1 + rs))
```
`diff()` puts NaN at index 0, but `delta.where(delta > 0, 0)` replaces that
NaN by `0` (a NaN comparison is `False`), so the gain/loss series start with
a constant `0` and the 14-bar rolling mean is already defined at index 13,
i.e. with 14 bars of history. -/

/-- Gain series: a leading `0` (the coerced NaN delta) followed by the
positive parts of the close-to-close deltas. -/
def gains (closes : List ℚ) : List ℚ := 0 :: (deltas closes).map gainPart

/-- Loss series: a leading `0` followed by the negative parts of the deltas. -/
def losses (closes : List ℚ) : List ℚ := 0 :: (deltas closes).map lossPart

/-- RSI from an average gain and average loss, following the IEEE-754 float
semantics of the pandas expression `100 - 100/(1 + gain/loss)`:
`loss = 0` with `gain > 0` gives `rs = +∞` and hence exactly `100`;
`loss = 0` with `gain = 0` gives `rs = NaN`, which propagates (`none`). -/
def rsiFromGainLoss (g l : ℚ) : Option ℚ :=
  if l = 0 then (if g = 0 then none else some 100)
  else some (100 - 100 / (1 + g / l))

/-- RSI(14) at the latest bar of a close series. -/
def rsiLatest (closes : List ℚ) : Option ℚ :=
  match rollMeanLast 14 (gains closes), rollMeanLast 14 (losses closes) with
  | some g, some l => rsiFromGainLoss g l
  | _, _ => none

/-! ## EMA and MACD

`hist['Close'].ewm(span=n, adjust=False).mean()` seeds at the first value and
then applies `y = ((n-1)·prev + 2·x)/(n+1)`; every index is defined. -/

/-- One step of the `adjust=False` exponential smoothing with factor
`α = 2/(span+1)`. -/
def emaNext (span : ℕ) (prev x : ℚ) : ℚ :=
  (((span : ℚ) - 1) * prev + 2 * x) / ((span : ℚ) + 1)

/-- EMA tail after a known accumulator value. -/
def emaFrom (span : ℕ) (acc : ℚ) : List ℚ → List ℚ
  | [] => []
  | x :: xs =>
    let y := emaNext span acc x
    y :: emaFrom span y xs

/-- Full EMA series, seeded at the first element (pandas `adjust=False`). -/
def emaList (span : ℕ) : List ℚ → List ℚ
  | [] => []
  | x :: xs => x :: emaFrom span x xs

/-- MACD series: `EMA(close,12) - EMA(close,26)`. -/
def macdList (closes : List ℚ) : List ℚ :=
  List.zipWith (fun a b => a - b) (emaList 12 closes) (emaList 26 closes)

/-! ## Bollinger-band rule and screener scoring (AI_Screener.py) -/

/-- Rolling sample variance (pandas `.std()` squared, `ddof=1`) over the last
`n` observations; NaN before the window is filled. -/
def rollVarLast (n : ℕ) (l : List ℚ) : Option ℚ :=
  if l.length < n then none else
    let w := lastN n l
    let m := w.sum / n
    some ((w.map (fun x => (x - m)^2)).sum / ((n : ℚ) - 1))

/-- The rule `latest['Close'] < latest['BB_Upper'] * 0.98` with
`BB_Upper = BB_Middle + 2·BB_Std` and `BB_Std = √v`, decided exactly over
`ℚ`: for `d := close - (49/50)·mid`, the inequality `d < (49/25)·√v` holds
iff `d < 0` or `d² < (49/25)²·v` (the variance `v` is a sum of squares and
hence non-negative).  NaN operands make the comparison `false`. -/
def oBelowUpperBB (close bbMid bbVar : Option ℚ) : Bool :=
  match close, bbMid, bbVar with
  | some c, some m, some v =>
    let d := c - 49/50 * m
    decide (d < 0) || decide (d^2 < (49/25)^2 * v)
  | _, _, _ => false

/-- The chained comparison `40 < latest['RSI'] < 70` (False on NaN). -/
def rsiHealthy (r : Option ℚ) : Bool :=
  match r with
  | some v => decide (40 < v) && decide (v < 70)
  | none => false

/-- One `if cond: score += 1; reasons.append(reason)` block of the screener. -/
def scoreStep (acc : ℚ × List String) (fired : Bool) (reason : String) :
    ℚ × List String :=
  if fired then (acc.1 + 1, acc.2 ++ [reason]) else acc

/-- The five sequential scoring blocks of `analyze_stock_for_signal`, over
the latest row's indicator values. -/
def screenerScoring (close sma200 rsi macd signalLine bbMid bbVar volume avgVol20 :
    Option ℚ) : ℚ × List String :=
  let s0 : ℚ × List String := (0, [])
  let s1 := scoreStep s0 (oGT close sma200) "Bullish Trend (>SMA200)"
  let s2 := scoreStep s1 (rsiHealthy rsi) "Healthy RSI"
  let s3 := scoreStep s2 (oGT macd signalLine) "Positive MACD"
  let s4 := scoreStep s3 (oBelowUpperBB close bbMid bbVar) "Below Upper BB"
  scoreStep s4 (oGT volume avgVol20) "High Volume"

/-- One OHLCV bar.  Fields carry total rationals: a row whose values are all
present (the pages' `dropna` is then the identity). -/
structure Bar where
  Open : ℚ
  High : ℚ
  Low : ℚ
  Close : ℚ
  Volume : ℚ
deriving DecidableEq, Repr

/-- Outcome of the `yf.Ticker(...).history(...)` call made inside
`analyze_stock_for_signal`: either a history or a raised exception (the
function's `except Exception: return None` handler). -/
inductive FetchResult
  | ok (hist : List Bar)
  | err
deriving DecidableEq, Repr

/-- One screener result (the `chart_data` and `name` presentation fields are
omitted). -/
structure ScanEntry where
  ticker : String
  price : Option ℚ
  score : ℚ
  reasons : List String
deriving DecidableEq, Repr

/-- Translation of `analyze_stock_for_signal(ticker)` from AI_Screener.py:
reject histories shorter than 200 bars, compute the latest indicator values,
run the five scoring blocks, and return a result only when `score >= 3`.
Any exception yields the same `None` as the rejection paths. -/
def analyze_stock_for_signal (ticker : String) (fr : FetchResult) :
    Option ScanEntry :=
  match fr with
  | .err => none
  | .ok hist =>
    if hist.length < 200 then none else
    let closes := hist.map (·.Close)
    let vols := hist.map (·.Volume)
    let sr := screenerScoring closes.getLast? (rollMeanLast 200 closes)
      (rsiLatest closes) (macdList closes).getLast?
      (emaList 9 (macdList closes)).getLast? (rollMeanLast 20 closes)
      (rollVarLast 20 closes) vols.getLast? (rollMeanLast 20 vols)
    if 3 ≤ sr.1 then
      some { ticker := ticker, price := closes.getLast?, score := sr.1,
             reasons := sr.2 }
    else none

/-! ## Ranking (the `sorted`/`list.sort` calls of the two scanner pages)

Python's `sorted(..., key=..., reverse=True)` is a stable descending sort.
It is modeled by a stable insertion sort on a `ℚ × ℚ` key compared
lexicographically; an element is inserted after every earlier element whose
key is strictly greater, so equal keys keep their input order. -/

/-- Strict lexicographic `>` on sort keys. -/
def keyGT (a b : ℚ × ℚ) : Bool :=
  decide (b.1 < a.1) || (decide (a.1 = b.1) && decide (b.2 < a.2))

/-- Non-strict lexicographic `≥` on sort keys (the sortedness relation). -/
def keyGE (a b : ℚ × ℚ) : Prop :=
  b.1 < a.1 ∨ (a.1 = b.1 ∧ b.2 ≤ a.2)

/-- Stable descending insertion. -/
def insertRanked (k : α → ℚ × ℚ) (x : α) : List α → List α
  | [] => [x]
  | y :: ys => if keyGT (k y) (k x) then y :: insertRanked k x ys else x :: y :: ys

/-- Stable descending sort by a `ℚ × ℚ` key. -/
def sortRanked (k : α → ℚ × ℚ) : List α → List α
  | [] => []
  | x :: xs => insertRanked k x (sortRanked k xs)

/-- Sort key of the AI screener: `sorted(signals, key=lambda x: x['score'],
reverse=True)` — score only, no secondary component (the second slot is a
constant `0`). -/
def scanKey (e : ScanEntry) : ℚ × ℚ := (e.score, 0)

/-- The `Run Scan` loop of AI_Screener.py: evaluate every ticker, keep the
non-`None` results, sort by score descending. -/
def runScan (inputs : List (String × FetchResult)) : List ScanEntry :=
  sortRanked scanKey (inputs.filterMap (fun p => analyze_stock_for_signal p.1 p.2))

/-! ## ADX (Swing_Strategy.py, `calculate_adx`)

The ingredient series are positional over the High/Low/Close columns.
`np.where` comparisons against the leading NaN of `diff()` are `False`,
producing `0`; the second `np.where` compares the raw `Low.diff()` against
the already floored `plus_dm` (the source overwrites `plus_dm` first) and
stores the negated value `-minus_dm`.  `pd.concat(...).max(axis=1)` skips
NaN, so the true range at index 0 is `High - Low`.

The directional-index step, however, is not positional in the program:
`plus_dm`/`minus_dm` after `np.where` are numpy arrays, so
`pd.Series(plus_dm)` carries a fresh `RangeIndex` 0..n-1, while `atr`
(derived from the dataframe columns) keeps the history's `DatetimeIndex`.
Pandas arithmetic aligns operands by index label, and no integer position
label ever equals a date label, so at every label of the union index one
operand of `pd.Series(plus_dm).rolling(14).mean() / atr` is missing and the
quotient is NaN.  The label kinds are made explicit by `SeriesLabel`, and a
binary operation with a missing operand is NaN (`alignedDiv`); consequently
`plus_di`, `minus_di`, `dx` and `adx` are NaN at every label — the
`try/except` of `calculate_adx` never fires, because nothing raises. -/

/-- Floored `plus_dm` series:
`np.where((plus_dm > minus_dm) & (plus_dm > 0), plus_dm, 0.0)`. -/
def dmPlus (highs lows : List ℚ) : List ℚ :=
  0 :: List.zipWith (fun p m => if m < p ∧ 0 < p then p else 0)
    (deltas highs) (deltas lows)

/-- Floored `minus_dm` series:
`np.where((minus_dm > plus_dm) & (minus_dm > 0), -minus_dm, 0.0)`, where
`plus_dm` has already been floored by the previous statement. -/
def dmMinus (highs lows : List ℚ) : List ℚ :=
  0 :: List.zipWith (fun p m =>
      let pf := if m < p ∧ 0 < p then p else 0
      if pf < m ∧ 0 < m then -m else 0)
    (deltas highs) (deltas lows)

/-- True-range series `max(high-low, |high-prevClose|, |low-prevClose|)`. -/
def trList (bars : List Bar) : List ℚ :=
  match bars with
  | [] => []
  | b :: rest =>
    (b.High - b.Low) ::
      List.zipWith (fun cur prevClose =>
          max (cur.High - cur.Low) (max |cur.High - prevClose| |cur.Low - prevClose|))
        rest (bars.map (·.Close))

/-- Rolling mean at index `i` (NaN before the window is filled or past the
end of the series). -/
def rollMeanAt (n : ℕ) (l : List ℚ) (i : ℕ) : Option ℚ :=
  if i + 1 < n ∨ l.length ≤ i then none
  else some (((l.take (i+1)).drop (i+1-n)).sum / n)

/-- Float division with an undefined result for a zero divisor. -/
def qdivF (x y : ℚ) : Option ℚ := if y = 0 then none else some (x / y)

/-- One label of the union index over which the directional-index arithmetic
runs: the `i`-th date of the history's `DatetimeIndex`, or the integer `i`
of the fresh `RangeIndex` that `pd.Series(plus_dm)` carries. -/
inductive SeriesLabel
  | date (i : ℕ)
  | pos (i : ℕ)
deriving DecidableEq, Repr

/-- Label-aligned float division: pandas evaluates a binary operation at
each label of the union index, and a label present in only one operand has
a missing (NaN) value on the other side, making the result NaN there. -/
def alignedDiv (x y : Option ℚ) : Option ℚ :=
  match x, y with
  | some a, some b => qdivF a b
  | _, _ => none

/-- `plus_di = 100 * (pd.Series(plus_dm).rolling(14).mean() / atr)` at a
label of the union index.  The rolling mean of the DM series lives on `pos`
labels only, `atr` on `date` labels only, so at a `pos` label the `atr`
operand is missing and at a `date` label the DM operand is missing. -/
def pdiAt (bars : List Bar) (lab : SeriesLabel) : Option ℚ :=
  match lab with
  | .pos i =>
    (alignedDiv (rollMeanAt 14 (dmPlus (bars.map (·.High)) (bars.map (·.Low))) i)
      none).map (fun q => 100 * q)
  | .date i =>
    (alignedDiv none (rollMeanAt 14 (trList bars) i)).map (fun q => 100 * q)

/-- `minus_di = 100 * (pd.Series(minus_dm).rolling(14).mean() / atr)` at a
label of the union index, with the same one-sided operands as `pdiAt`. -/
def mdiAt (bars : List Bar) (lab : SeriesLabel) : Option ℚ :=
  match lab with
  | .pos i =>
    (alignedDiv (rollMeanAt 14 (dmMinus (bars.map (·.High)) (bars.map (·.Low))) i)
      none).map (fun q => 100 * q)
  | .date i =>
    (alignedDiv none (rollMeanAt 14 (trList bars) i)).map (fun q => 100 * q)

/-- `dx = 100 * abs(plus_di - minus_di) / (plus_di + minus_di)` at a label:
`plus_di` and `minus_di` share one index, so the arithmetic is entry-wise,
NaN whenever an operand is NaN. -/
def dxAt (bars : List Bar) (lab : SeriesLabel) : Option ℚ :=
  match pdiAt bars lab, mdiAt bars lab with
  | some p, some m => qdivF (100 * |p - m|) (p + m)
  | _, _ => none

/-- Mean of one rolling window over possibly-NaN entries: NaN unless every
entry of the window is defined. -/
def rollWindowMean (w : List (Option ℚ)) : Option ℚ :=
  if w.all (·.isSome) then some ((w.filterMap id).sum / w.length) else none

/-- The `ADX` column the page reads: `hist['ADX'] = calculate_adx(hist)`
aligns the returned `adx = dx.rolling(14).mean()` back to the history's
date labels, so the value at date `i` is the mean of the 14-entry `dx`
window ending at that label in the union-index ordering.  Every `dx` entry
at every label is NaN (`dx_all_nan` below), so the mean is NaN for any
window shape; the window is therefore modeled as the label's own entry and
its 13 predecessors among the date labels. -/
def adxColumnAt (bars : List Bar) (i : ℕ) : Option ℚ :=
  if i + 1 < 14 ∨ bars.length ≤ i then none else
  rollWindowMean ((List.range 14).map (fun k => dxAt bars (.date (i - k))))

/-- ADX at the latest bar, as read by `latest['ADX']`. -/
def adxLast (bars : List Bar) : Option ℚ := adxColumnAt bars (bars.length - 1)

/-! ## Swing_Strategy.py: `analyze_market_data` -/

/-- The rule `latest['RVOL'] > c` with `RVOL = Volume / AvgVol`: pandas gives
`+∞` for a positive volume over a zero average (which exceeds any
threshold) and NaN for `0/0` (comparison `false`). -/
def rvolGT (v : ℚ) (avg : Option ℚ) (c : ℚ) : Bool :=
  match avg with
  | none => false
  | some a => if a = 0 then decide (0 < v) else decide (c < v / a)

/-- Per-bar `(High - Low) / Close` series; a zero close is modeled as an
undefined entry. -/
def dailyRangePcts (bars : List Bar) : List (Option ℚ) :=
  bars.map (fun b => if b.Close = 0 then none else some ((b.High - b.Low) / b.Close))

/-- Rolling mean at the latest index over a series with possibly undefined
entries (NaN when the window holds any). -/
def rollMeanOptLast (n : ℕ) (l : List (Option ℚ)) : Option ℚ :=
  if l.length < n then none else
    let w := lastN n l
    if w.all (·.isSome) then some ((w.filterMap id).sum / n) else none

/-- One swing-scanner result (the interpolated reason strings are modeled by
their constant prefix; the `rvol` and `name` presentation fields are
omitted). -/
structure SwingEntry where
  ticker : String
  price : ℚ
  score : ℚ
  reasons : List String
  weekly_potential : ℚ
  target : ℚ
  stop : ℚ
deriving DecidableEq, Repr

/-- The fixed-percentage risk levels of the swing result:
`target = Close * 1.05` and `stop = Close * 0.97`. -/
def riskLevels (price : ℚ) : ℚ × ℚ := (price * (21/20), price * (97/100))

/-- Translation of `analyze_market_data(ticker, hist)` from Swing_Strategy.py:
reject histories shorter than 50 bars, compute EMA20/EMA50/RSI/ADX/RVOL and
the volatility estimate, run the five scoring factors (the volatility factor
scores without appending a reason), and return a result only when an entry
signal fired and `weekly_potential > 3.0`.  The bars carry total rationals,
so the source's `dropna` is the identity here. -/
def analyze_market_data (ticker : String) (hist : List Bar) : Option SwingEntry :=
  if hist.length < 50 then none else
  let closes := hist.map (·.Close)
  let ema20 := emaList 20 closes
  let ema50 := emaList 50 closes
  let rsi := rsiLatest closes
  let adx := adxLast hist
  let vols := hist.map (·.Volume)
  let avgVol := rollMeanLast 20 vols
  let weekly := (rollMeanOptLast 14 (dailyRangePcts hist)).map (fun a => a * 100 * (11/5))
  match closes.getLast?, closes.dropLast.getLast?, ema20.getLast?,
        ema20.dropLast.getLast?, ema50.getLast?, vols.getLast? with
  | some latestClose, some prevClose, some latestE20, some prevE20,
      some latestE50, some latestVol =>
    let s0 : ℚ × List String := (0, [])
    let s1 := if latestE50 < latestClose then
        (s0.1 + 1, s0.2 ++ ["Bullish Trend (>EMA50)"]) else s0
    let crossover := decide (prevClose < prevE20) && decide (latestE20 < latestClose)
    let se :=
      if crossover then ((s1.1 + 1, s1.2 ++ ["Momentum Crossover"]), true)
      else if oLT rsi (some 30) then ((s1.1 + 1, s1.2 ++ ["Oversold Bounce"]), true)
      else (s1, false)
    let s2 := se.1
    let s3 := if rvolGT latestVol avgVol (3/2) then
        (s2.1 + 1, s2.2 ++ ["High Volume"]) else s2
    let s4 := if oGT adx (some 25) then (s3.1 + 1, s3.2 ++ ["Strong Trend"]) else s3
    let s5 := if oGT weekly (some 4) then (s4.1 + 1, s4.2) else s4
    match weekly with
    | some w =>
      if se.2 ∧ 3 < w then
        some { ticker := ticker, price := latestClose, score := s5.1,
               reasons := s5.2, weekly_potential := w,
               target := (riskLevels latestClose).1,
               stop := (riskLevels latestClose).2 }
      else none
    | none => none
  | _, _, _, _, _, _ => none

/-- Sort key of the swing scanner:
`results.sort(key=lambda x: (x['score'], x['weekly_potential']), reverse=True)`. -/
def swingKey (e : SwingEntry) : ℚ × ℚ := (e.score, e.weekly_potential)

/-- The `Run Probability Scanner` loop of Swing_Strategy.py: analyze every
ticker's batch history, keep the non-`None` results, sort by
`(score, weekly_potential)` descending. -/
def runProbabilityScan (inputs : List (String × List Bar)) : List SwingEntry :=
  sortRanked swingKey (inputs.filterMap (fun p => analyze_market_data p.1 p.2))

/-! ## My_Portfolio.py: `get_position_details` signal logic

```
current_rsi = latest['RSI'] if 'RSI' in latest and pd.notna(latest['RSI']) else 50
if pd.notna(sma50) and pd.notna(sma200):
    if current_rsi > 70:   signal = "SELL: RSI Overbought (>70)"
    elif sma50 < sma200:   signal = "SELL: Death Cross (50 < 200 SMA)"
    elif current_rsi < 30: signal = "BUY: RSI Oversold (<30)"
    elif sma50 > sma200:   signal = "BUY: Golden Cross (Bullish Trend)"
```
-/

/-- The five possible signal strings of the portfolio evaluator. -/
inductive PortfolioSignal
  | hold
  | sellOverbought
  | sellDeathCross
  | buyOversold
  | buyGoldenCross
deriving DecidableEq, Repr

/-- Signal of `get_position_details` from the latest RSI (possibly NaN) and
the latest SMA50/SMA200 values (possibly NaN).  A NaN RSI is replaced by the
default `50` before the rules run; the rules run only when both SMAs are
defined. -/
def portfolioSignalOf (rsi sma50 sma200 : Option ℚ) : PortfolioSignal :=
  match sma50, sma200 with
  | some a, some b =>
    let r := rsi.getD 50
    if 70 < r then .sellOverbought
    else if a < b then .sellDeathCross
    else if r < 30 then .buyOversold
    else if b < a then .buyGoldenCross
    else .hold
  | _, _ => .hold

/-- SELL-family outcomes (rendered with a "SELL:" prefixed string). -/
def isSellSignal : PortfolioSignal → Bool
  | .sellOverbought => true
  | .sellDeathCross => true
  | _ => false

/-- BUY-family outcomes (rendered with a "BUY:" prefixed string). -/
def isBuySignal : PortfolioSignal → Bool
  | .buyOversold => true
  | .buyGoldenCross => true
  | _ => false

/-- Result record of `get_position_details` (chart data omitted; `rsi` is the
defaulted `current_rsi` the page returns). -/
structure PositionDetails where
  price : Option ℚ
  rsi : ℚ
  sma50 : Option ℚ
  sma200 : Option ℚ
  signal : PortfolioSignal
deriving DecidableEq, Repr

/-- `get_position_details` over a 1y close history: indicators at the latest
bar plus the signal; `None` for an empty history. -/
def get_position_details (closes : List ℚ) : Option PositionDetails :=
  if closes.length = 0 then none else
  let sma50 := rollMeanLast 50 closes
  let sma200 := rollMeanLast 200 closes
  let rsi := rsiLatest closes
  some { price := closes.getLast?
         rsi := rsi.getD 50
         sma50 := sma50
         sma200 := sma200
         signal := portfolioSignalOf rsi sma50 sma200 }

/-! ## Analysis.py: `calculate_verdict` -/

/-- The latest indicator row consumed by `calculate_verdict`; every field can
be NaN (e.g. `SMA200` for a history shorter than 200 bars). -/
structure AnalysisLatest where
  Close : Option ℚ
  SMA200 : Option ℚ
  RSI : Option ℚ
  MACD : Option ℚ
  Signal_Line : Option ℚ
  BB_Lower : Option ℚ
deriving DecidableEq, Repr

/-- Verdict record returned by `calculate_verdict`. -/
structure Verdict where
  verdict : String
  color : String
  score : ℚ
  reasons : List String
deriving DecidableEq, Repr

/-- The chained comparison `30 < latest['RSI'] < 70` (False on NaN). -/
def rsiNeutral (r : Option ℚ) : Bool :=
  match r with
  | some v => decide (30 < v) && decide (v < 70)
  | none => false

/-- Sequentially accumulated `(score, reasons)` pair of `calculate_verdict`,
mirroring the `score += ...; reasons.append(...)` statements. -/
def verdictSR (latest : AnalysisLatest) : ℚ × List String :=
  let s0 : ℚ × List String := (0, [])
  let s1 :=
    if oGT latest.Close latest.SMA200 then
      (s0.1 + 1, s0.2 ++ ["Price > 200 SMA (Long term Bullish)"])
    else
      (s0.1 - 1, s0.2 ++ ["Price < 200 SMA (Long term Bearish)"])
  let s2 :=
    if rsiNeutral latest.RSI then (s1.1 + 1/2, s1.2)
    else if oLE latest.RSI (some 30) then
      (s1.1 + 2, s1.2 ++ ["RSI Oversold (Potential bounce)"])
    else if oGE latest.RSI (some 70) then
      (s1.1 - 1, s1.2 ++ ["RSI Overbought (Caution)"])
    else s1
  let s3 :=
    if oGT latest.MACD latest.Signal_Line then
      (s2.1 + 1, s2.2 ++ ["MACD Bullish Crossover"])
    else
      (s2.1, s2.2 ++ ["MACD Bearish"])
  if oLT latest.Close latest.BB_Lower then
    (s3.1 + 1, s3.2 ++ ["Price below Lower BB (Oversold)"])
  else s3

/-- Direct translation of `calculate_verdict(latest)` from Analysis.py. -/
def calculate_verdict (latest : AnalysisLatest) : Verdict :=
  let s := verdictSR latest
  if 3 ≤ s.1 then { verdict := "STRONG BUY", color := "green", score := s.1, reasons := s.2 }
  else if 1 ≤ s.1 then { verdict := "BUY / ACCUMULATE", color := "lightgreen", score := s.1, reasons := s.2 }
  else if s.1 ≤ -1 then { verdict := "SELL / AVOID", color := "red", score := s.1, reasons := s.2 }
  else { verdict := "NEUTRAL", color := "blue", score := s.1, reasons := s.2 }

/-- Score contribution of the trend rule of `calculate_verdict`. -/
def trendContrib (latest : AnalysisLatest) : ℚ :=
  if oGT latest.Close latest.SMA200 then 1 else -1

/-- Score contribution of the RSI rule group of `calculate_verdict`. -/
def rsiContrib (latest : AnalysisLatest) : ℚ :=
  if rsiNeutral latest.RSI then 1/2
  else if oLE latest.RSI (some 30) then 2
  else if oGE latest.RSI (some 70) then -1
  else 0

/-- Score contribution of the MACD rule of `calculate_verdict`. -/
def macdContrib (latest : AnalysisLatest) : ℚ :=
  if oGT latest.MACD latest.Signal_Line then 1 else 0

/-- Score contribution of the Bollinger rule of `calculate_verdict`. -/
def bbContrib (latest : AnalysisLatest) : ℚ :=
  if oLT latest.Close latest.BB_Lower then 1 else 0

/-- Number of branches of `calculate_verdict` that modify the score, i.e. the
count of fired scoring rules: the trend rule modifies the score in both of
its branches, the RSI group in three of its four cases, MACD and Bollinger
only in their `if` branch. -/
def analysisScoringBranches (latest : AnalysisLatest) : ℕ :=
  1
  + (if rsiNeutral latest.RSI then 1
     else if oLE latest.RSI (some 30) then 1
     else if oGE latest.RSI (some 70) then 1
     else 0)
  + (if oGT latest.MACD latest.Signal_Line then 1 else 0)
  + (if oLT latest.Close latest.BB_Lower then 1 else 0)

/-! ## utils.py: `compute_portfolio` -/

/-- One normalized holdings row (`normalize_holdings_df` guarantees a string
symbol and a numeric, non-NaN quantity). -/
structure Holding where
  symbol : String
  qty : ℚ
deriving DecidableEq, Repr

/-- One output row of `compute_portfolio`, with the mapped price and the
derived value.  A symbol missing from the price dict maps to NaN and a
`None` price stays unknown; both are `none`, and in both cases the value
column ends up NaN/None and is dropped from the total. -/
structure PortfolioRow where
  symbol : String
  qty : ℚ
  price : Option ℚ
  value : Option ℚ
deriving DecidableEq, Repr

/-- Translation of `compute_portfolio(holdings_df, prices)` from utils.py:
`df["price"] = df["symbol"].map(prices)`, `value = price * qty` where the
price is known, and `total = float(df["value"].dropna().sum())` (the sum of
an empty list is `0`, matching the `0.0` fallback). -/
def compute_portfolio (holdings : List Holding) (prices : String → Option ℚ) :
    List PortfolioRow × ℚ :=
  let rows := holdings.map (fun h =>
    let p := prices h.symbol
    { symbol := h.symbol, qty := h.qty, price := p,
      value := p.map (fun x => x * h.qty) : PortfolioRow })
  (rows, ((rows.map (fun r => r.value)).filterMap id).sum)

/-! ## Concrete inputs used by counterexamples and witnesses -/

/-- Bar with all four prices equal (the screener only reads Close/Volume). -/
def mkFlat (c v : ℚ) : Bar := ⟨c, c, c, c, v⟩

/-- A 30-bar history: too short for the screener's 200-bar requirement and
for the swing scanner's 50-bar requirement. -/
def shortBars : List Bar := List.replicate 30 (mkFlat 1 10)

/-- A 15-bar history of identical bars with a positive daily range: all
directional movements are zero while the true range is positive, so the
intended Wilder arithmetic would give `+DI = -DI = 0` (a zero DI sum) at
index 14 — the situation the ADX claim addresses. -/
def flatBars : List Bar := List.replicate 15 ⟨1, 2, 1, 3/2, 10⟩

/-- Fourteen strictly increasing closes: exactly `period` bars, on which the
pandas RSI is already defined (and equal to 100). -/
def closes14 : List ℚ := [1, 2, 3, 4, 5, 6, 7, 8, 9, 10, 11, 12, 13, 14]

/-- A declining bar for the swing counterexample series: close `150 - i`,
high `close * 127/125` (a 1.6% daily range), constant volume. -/
def declBar (i : ℕ) : Bar :=
  let c : ℚ := 150 - i
  { Open := c, High := c * (127/125), Low := c, Close := c, Volume := 1000 }

/-- Fifty strictly declining bars: RSI 0 fires the oversold entry signal,
no other factor fires, `weekly_potential = 3.52`, hence a returned swing
entry with score 1. -/
def swingCexBars : List Bar := (List.range 50).map declBar

/-- Latest row for the Analysis counterexample of the SELL-override claim:
overbought RSI 80 with three other bullish rules firing. -/
def overboughtLatest : AnalysisLatest :=
  { Close := some 100, SMA200 := some 50, RSI := some 80,
    MACD := some 2, Signal_Line := some 1, BB_Lower := some 150 }

/-- Latest row for the score/reason-cardinality counterexample: neutral RSI
50 adds `+0.5` without a reason while the bearish MACD branch appends a
reason without a score change. -/
def halfPointLatest : AnalysisLatest :=
  { Close := some 100, SMA200 := some 50, RSI := some 50,
    MACD := some 2, Signal_Line := some 1, BB_Lower := some 0 }

/-- Latest row with an undefined (NaN) RSI, for the NaN-propagation part of
the RSI policy. -/
def noRsiLatest : AnalysisLatest :=
  { Close := some 1, SMA200 := some 2, RSI := none,
    MACD := some 1, Signal_Line := some 2, BB_Lower := some 0 }

/-! ## Helper lemmas -/

/-- The fields of `calculate_verdict` coincide with the accumulated pair. -/
theorem calculate_verdict_eq_verdictSR (latest : AnalysisLatest) :
    (calculate_verdict latest).score = (verdictSR latest).1 ∧
      (calculate_verdict latest).reasons = (verdictSR latest).2 := by
  unfold calculate_verdict
  dsimp only
  split_ifs <;> exact ⟨rfl, rfl⟩

/-- The score of `calculate_verdict` decomposes as the sum of its four rule
contributions (the rules are independent, with no early exit). -/
theorem calculate_verdict_score_decomp (latest : AnalysisLatest) :
    (calculate_verdict latest).score =
      trendContrib latest + rsiContrib latest + macdContrib latest + bbContrib latest := by
  rw [(calculate_verdict_eq_verdictSR latest).1]
  unfold verdictSR trendContrib rsiContrib macdContrib bbContrib
  cases h1 : oGT latest.Close latest.SMA200 <;>
    cases h2 : rsiNeutral latest.RSI <;>
      cases h3 : oLE latest.RSI (some 30) <;>
        cases h4 : oGE latest.RSI (some 70) <;>
          cases h5 : oGT latest.MACD latest.Signal_Line <;>
            cases h6 : oLT latest.Close latest.BB_Lower <;>
              simp only [h1, h2, h3, h4, h5, h6, if_true, if_false, Bool.false_eq_true] <;> ring

/-- A strictly greater key yields the non-strict ordering. -/
theorem keyGE_of_keyGT {a b : ℚ × ℚ} (h : keyGT a b = true) : keyGE a b := by
  unfold keyGT at h
  unfold keyGE
  rcases Bool.or_eq_true_iff.mp h with h1 | h2
  · exact Or.inl (of_decide_eq_true h1)
  · obtain ⟨he, hl⟩ := Bool.and_eq_true_iff.mp h2
    exact Or.inr ⟨of_decide_eq_true he, le_of_lt (of_decide_eq_true hl)⟩

/-- A failed strict comparison yields the reverse non-strict ordering. -/
theorem keyGE_of_not_keyGT {a b : ℚ × ℚ} (h : keyGT a b = false) : keyGE b a := by
  unfold keyGT at h
  unfold keyGE
  rcases Bool.or_eq_false_iff.mp h with ⟨h1, h2⟩
  have h1' : a.1 ≤ b.1 := not_lt.mp (of_decide_eq_false h1)
  rcases lt_or_eq_of_le h1' with hl | he
  · exact Or.inl hl
  · rcases Bool.and_eq_false_iff.mp h2 with h3 | h4
    · exact absurd he (fun hh => by simp [hh] at h3)
    · exact Or.inr ⟨he.symm, not_lt.mp (of_decide_eq_false h4)⟩

/-- Transitivity of the key ordering. -/
theorem keyGE_trans {a b c : ℚ × ℚ} (hab : keyGE a b) (hbc : keyGE b c) : keyGE a c := by
  unfold keyGE at *
  rcases hab with h1 | ⟨h1, h1'⟩ <;> rcases hbc with h2 | ⟨h2, h2'⟩
  · exact Or.inl (lt_trans h2 h1)
  · exact Or.inl (h2 ▸ h1)
  · exact Or.inl (h1 ▸ h2)
  · exact Or.inr ⟨h1.trans h2, h2'.trans h1'⟩

/-- Membership in an insertion. -/
theorem mem_insertRanked (k : α → ℚ × ℚ) (x a : α) (l : List α) :
    a ∈ insertRanked k x l ↔ a = x ∨ a ∈ l := by
  induction l with
  | nil => simp [insertRanked]
  | cons y ys ih =>
    unfold insertRanked
    split_ifs
    · rw [List.mem_cons, ih, List.mem_cons]
      tauto
    · rw [List.mem_cons]

/-- Insertion adds one element. -/
theorem insertRanked_length (k : α → ℚ × ℚ) (x : α) (l : List α) :
    (insertRanked k x l).length = l.length + 1 := by
  induction l with
  | nil => rfl
  | cons y ys ih =>
    unfold insertRanked
    split_ifs <;> simp [ih, List.length_cons]

/-- Sorting preserves length. -/
theorem sortRanked_length (k : α → ℚ × ℚ) (l : List α) :
    (sortRanked k l).length = l.length := by
  induction l with
  | nil => rfl
  | cons y ys ih =>
    unfold sortRanked
    rw [insertRanked_length, ih, List.length_cons]

/-- Membership is preserved by sorting. -/
theorem mem_sortRanked (k : α → ℚ × ℚ) (a : α) (l : List α) :
    a ∈ sortRanked k l ↔ a ∈ l := by
  induction l with
  | nil => simp [sortRanked]
  | cons y ys ih =>
    unfold sortRanked
    rw [mem_insertRanked]
    simp [ih]

/-- Insertion into a key-sorted list stays key-sorted. -/
theorem insertRanked_pairwise (k : α → ℚ × ℚ) (x : α) (l : List α)
    (h : List.Pairwise (fun a b => keyGE (k a) (k b)) l) :
    List.Pairwise (fun a b => keyGE (k a) (k b)) (insertRanked k x l) := by
  induction l with
  | nil => simp [insertRanked]
  | cons y ys ih =>
    rw [List.pairwise_cons] at h
    unfold insertRanked
    split_ifs with hc
    · rw [List.pairwise_cons]
      refine ⟨?_, ih h.2⟩
      intro z hz
      rcases (mem_insertRanked k x z ys).mp hz with rfl | hz
      · exact keyGE_of_keyGT hc
      · exact h.1 z hz
    · rw [List.pairwise_cons]
      refine ⟨?_, List.pairwise_cons.mpr h⟩
      intro z hz
      rcases List.mem_cons.mp hz with rfl | hz
      · exact keyGE_of_not_keyGT (Bool.of_not_eq_true hc)
      · exact keyGE_trans (keyGE_of_not_keyGT (Bool.of_not_eq_true hc)) (h.1 z hz)

/-- The output of `sortRanked` is sorted by its key, descending. -/
theorem sortRanked_pairwise (k : α → ℚ × ℚ) (l : List α) :
    List.Pairwise (fun a b => keyGE (k a) (k b)) (sortRanked k l) := by
  induction l with
  | nil => exact List.Pairwise.nil
  | cons y ys ih => exact insertRanked_pairwise k y (sortRanked k ys) ih

/-- Length of a `filterMap` as a count of successes. -/
theorem length_filterMap_eq_countP (f : α → Option β) (l : List α) :
    (l.filterMap f).length = l.countP (fun x => (f x).isSome) := by
  induction l with
  | nil => rfl
  | cons x xs ih =>
    rw [List.filterMap_cons, List.countP_cons]
    cases hf : f x <;> simp [hf, ih]

/-- A rolling mean is undefined before its window is filled. -/
theorem rollMeanLast_eq_none {n : ℕ} {l : List ℚ} (h : l.length < n) :
    rollMeanLast n l = none := by
  unfold rollMeanLast
  simp [h]

/-- A rolling mean of non-negative values is non-negative. -/
theorem rollMeanLast_nonneg {n : ℕ} {l : List ℚ} (hl : ∀ x ∈ l, 0 ≤ x) {g : ℚ}
    (h : rollMeanLast n l = some g) : 0 ≤ g := by
  unfold rollMeanLast at h
  split at h
  · exact absurd h (by simp)
  · injection h with h
    subst h
    have hs : 0 ≤ (lastN n l).sum :=
      List.sum_nonneg (fun x hx => hl x (List.mem_of_mem_drop hx))
    exact div_nonneg hs (Nat.cast_nonneg n)

/-- Every entry of the gain series is non-negative. -/
theorem gains_nonneg (closes : List ℚ) : ∀ x ∈ gains closes, 0 ≤ x := by
  intro x hx
  rcases List.mem_cons.mp hx with rfl | hx
  · exact le_refl 0
  · obtain ⟨y, _, rfl⟩ := List.mem_map.mp hx
    unfold gainPart
    split
    · linarith
    · exact le_refl 0

/-- Every entry of the loss series is non-negative. -/
theorem losses_nonneg (closes : List ℚ) : ∀ x ∈ losses closes, 0 ≤ x := by
  intro x hx
  rcases List.mem_cons.mp hx with rfl | hx
  · exact le_refl 0
  · obtain ⟨y, _, rfl⟩ := List.mem_map.mp hx
    unfold lossPart
    split
    · linarith
    · exact le_refl 0

/-- The gain series has one more entry than there are deltas. -/
theorem gains_length_lt {closes : List ℚ} (h : closes.length < 14) :
    (gains closes).length < 14 := by
  unfold gains deltas
  simp only [List.length_cons, List.length_map, List.length_zipWith, List.length_tail]
  omega

/-- A screener result always carries a score of at least 3 (the
`if score >= 3` return filter). -/
theorem analyze_score_ge {t : String} {fr : FetchResult} {e : ScanEntry}
    (h : analyze_stock_for_signal t fr = some e) : 3 ≤ e.score := by
  unfold analyze_stock_for_signal at h
  cases fr with
  | err => exact absurd h (by simp)
  | ok hist =>
    dsimp only at h
    split_ifs at h with h1 h2
    obtain rfl := Option.some.inj h
    exact h2

/-- An aligned division with a missing right operand is NaN. -/
theorem alignedDiv_none_right (x : Option ℚ) : alignedDiv x none = none := by
  cases x <;> rfl

/-- An aligned division with a missing left operand is NaN. -/
theorem alignedDiv_none_left (y : Option ℚ) : alignedDiv none y = none := by
  cases y <;> rfl

/-- Every entry of `plus_di`, `minus_di` and `dx` is NaN: the fresh
`RangeIndex` of the DM rolling means and the `DatetimeIndex` of `atr` share
no label, so one operand of each aligned division is always missing. -/
theorem dx_all_nan (bars : List Bar) (lab : SeriesLabel) :
    pdiAt bars lab = none ∧ mdiAt bars lab = none ∧ dxAt bars lab = none := by
  have hp : pdiAt bars lab = none := by
    cases lab <;> simp [pdiAt, alignedDiv_none_right, alignedDiv_none_left]
  have hm : mdiAt bars lab = none := by
    cases lab <;> simp [mdiAt, alignedDiv_none_right, alignedDiv_none_left]
  refine ⟨hp, hm, ?_⟩
  unfold dxAt
  rw [hp, hm]

/-! ## Claim theorems -/

/-- Claim C1, counterexample: in the Analysis evaluator `calculate_verdict`,
an overbought RSI (80 ≥ 70, an overriding SELL condition per the claim) does
not force a SELL-family verdict: with the three other bullish rules firing,
the verdict is the BUY-family "BUY / ACCUMULATE".  The claim's universal
SELL-override property therefore fails on this evaluator. -/
theorem analysis_overbought_still_buy :
    oGE overboughtLatest.RSI (some 70) = true ∧
    (calculate_verdict overboughtLatest).verdict = "BUY / ACCUMULATE" := by
  decide

/-- Claim C1, amended: in the portfolio evaluator `get_position_details`,
when both SMAs are defined and an overriding SELL condition holds at the
latest bar — the (defaulted) RSI exceeds 70, or SMA50 < SMA200 — the signal
is a SELL-family outcome and never simultaneously a BUY-family outcome; the
SELL checks come before every BUY check.  (In the Analysis evaluator,
RSI ≥ 70 merely subtracts one point and can coexist with a BUY verdict.) -/
theorem portfolio_sell_override (rsi : Option ℚ) (a b : ℚ)
    (h : 70 < rsi.getD 50 ∨ a < b) :
    isSellSignal (portfolioSignalOf rsi (some a) (some b)) = true ∧
    isBuySignal (portfolioSignalOf rsi (some a) (some b)) = false := by
  unfold portfolioSignalOf
  dsimp only
  by_cases h1 : 70 < rsi.getD 50
  · rw [if_pos h1]
    exact ⟨rfl, rfl⟩
  · have h2 : a < b := h.resolve_left h1
    rw [if_neg h1, if_pos h2]
    exact ⟨rfl, rfl⟩

/-- Witness for `portfolio_sell_override` at RSI 80, SMA50 = 5, SMA200 = 4. -/
theorem portfolio_sell_override_witness :
    isSellSignal (portfolioSignalOf (some 80) (some 5) (some 4)) = true ∧
    isBuySignal (portfolioSignalOf (some 80) (some 5) (some 4)) = false :=
  portfolio_sell_override (some 80) 5 4 (Or.inl (by norm_num [Option.getD]))

/-- Claim C2, counterexample: on this latest row `calculate_verdict` scores
`5/2` with only two reasons, while three scoring rules fired (trend +1 with
a reason, healthy-RSI +0.5 without a reason, MACD +1 with a reason): the
reason list's cardinality differs from the number of fired rules, and the
half-point contribution has no corresponding reason. -/
theorem analysis_score_reason_mismatch :
    (calculate_verdict halfPointLatest).score = 5/2 ∧
    (calculate_verdict halfPointLatest).reasons.length = 2 ∧
    analysisScoringBranches halfPointLatest = 3 := by
  decide

/-- Claim C2, amended: in the screener evaluator `analyze_stock_for_signal`
every fired rule contributes exactly +1 and appends exactly one reason, so
the score always equals the cardinality of the reason list (and hence the
number of fired rules).  In the Analysis variant the correspondence fails:
the healthy-RSI branch adds 0.5 without a reason and the bearish-MACD
branch appends a reason without a score change. -/
theorem screener_score_eq_reasons (close sma200 rsi macd signalLine bbMid bbVar
    volume avgVol20 : Option ℚ) :
    (screenerScoring close sma200 rsi macd signalLine bbMid bbVar volume avgVol20).1 =
      ((screenerScoring close sma200 rsi macd signalLine bbMid bbVar volume avgVol20).2.length : ℚ) := by
  unfold screenerScoring scoreStep
  dsimp only
  split_ifs <;> simp <;> norm_num

/-- Claim C3, counterexample: with exactly 14 bars (period bars, fewer than
period+1 = 15) the pandas RSI is already defined at the latest bar — the
leading NaN delta is coerced to a zero gain/loss by `where`, filling the
14-bar rolling window — and evaluates to 100 on a strictly increasing
series. -/
theorem rsi_defined_at_period_bars :
    closes14.length = 14 ∧ rsiLatest closes14 = some 100 := by
  decide

/-- Claim C3, amended: whenever the latest-bar RSI is defined it lies in
[0, 100]; an average loss of exactly 0 with a positive average gain gives
exactly 100 (the `+∞` relative strength collapses to 100, not NaN); with
fewer than period = 14 bars (rather than the claimed period+1) the RSI is
undefined; and an undefined RSI contributes nothing to the verdict score —
the RSI rules simply do not fire. -/
theorem rsi_policy :
    (∀ (closes : List ℚ) (r : ℚ), rsiLatest closes = some r → 0 ≤ r ∧ r ≤ 100) ∧
    (∀ g : ℚ, 0 < g → rsiFromGainLoss g 0 = some 100) ∧
    (∀ closes : List ℚ, closes.length < 14 → rsiLatest closes = none) ∧
    (∀ latest : AnalysisLatest, latest.RSI = none →
        (calculate_verdict latest).score =
          trendContrib latest + macdContrib latest + bbContrib latest) := by
  refine ⟨?_, ?_, ?_, ?_⟩
  · intro closes r h
    unfold rsiLatest at h
    split at h
    · rename_i g l hg hl
      have hg0 : 0 ≤ g := rollMeanLast_nonneg (gains_nonneg closes) hg
      have hl0 : 0 ≤ l := rollMeanLast_nonneg (losses_nonneg closes) hl
      unfold rsiFromGainLoss at h
      split_ifs at h with hlz hgz
      · injection h with h
        subst h
        norm_num
      · injection h with h
        subst h
        have hlpos : 0 < l := lt_of_le_of_ne hl0 (Ne.symm hlz)
        have hql : 0 ≤ g / l := div_nonneg hg0 (le_of_lt hlpos)
        have hden : (1:ℚ) ≤ 1 + g / l := by linarith
        have hle : 100 / (1 + g / l) ≤ 100 := div_le_self (by norm_num) hden
        have hpos : 0 < 100 / (1 + g / l) := div_pos (by norm_num) (by linarith)
        constructor <;> linarith
    · exact absurd h (by simp)
  · intro g hg
    unfold rsiFromGainLoss
    rw [if_pos rfl, if_neg (ne_of_gt hg)]
  · intro closes h
    unfold rsiLatest
    rw [rollMeanLast_eq_none (gains_length_lt h)]
  · intro latest hnone
    rw [calculate_verdict_score_decomp latest]
    have : rsiContrib latest = 0 := by
      unfold rsiContrib
      rw [hnone]
      rfl
    rw [this]
    ring

/-- Witness for `rsi_policy`: the range bound applied to the 14-bar series
(RSI = 100), the avgLoss-0 policy at gain 1, undefinedness on a 2-bar
series, and the no-propagation equation on a latest row with NaN RSI. -/
theorem rsi_policy_witness :
    ((0:ℚ) ≤ 100 ∧ (100:ℚ) ≤ 100) ∧
    rsiFromGainLoss 1 0 = some 100 ∧
    rsiLatest [1, 2] = none ∧
    (calculate_verdict noRsiLatest).score =
      trendContrib noRsiLatest + macdContrib noRsiLatest + bbContrib noRsiLatest :=
  ⟨rsi_policy.1 closes14 100 (by decide),
   rsi_policy.2.1 1 (by norm_num),
   rsi_policy.2.2.1 [1, 2] (by decide),
   rsi_policy.2.2.2 noRsiLatest rfl⟩

/-- Claim C4, counterexample: in the portfolio evaluator, an instrument with
an undefined (NaN) RSI is neither skipped nor excluded: the evaluator
substitutes the default value 50 for the undefined indicator and proceeds to
the SMA rules, here emitting a BUY signal — exactly the behaviour of the
evaluator on a defined RSI of 50. -/
theorem portfolio_default_rsi :
    portfolioSignalOf none (some 2) (some 1) = PortfolioSignal.buyGoldenCross ∧
    portfolioSignalOf none (some 2) (some 1) =
      portfolioSignalOf (some 50) (some 2) (some 1) := by
  decide

/-- Claim C4, amended: the screener never substitutes a default for an
undefined RSI — the healthy-RSI rule simply does not fire on NaN, and an
instrument with fewer than 200 bars is excluded before any rule runs; the
portfolio evaluator, however, substitutes the default 50 for an undefined
RSI and still evaluates the SMA rules, behaving exactly as if RSI were 50. -/
theorem undefined_rsi_policy :
    (∀ (t : String) (hist : List Bar), hist.length < 200 →
        analyze_stock_for_signal t (.ok hist) = none) ∧
    rsiHealthy none = false ∧
    (∀ sma50 sma200 : Option ℚ,
        portfolioSignalOf none sma50 sma200 =
          portfolioSignalOf (some 50) sma50 sma200) := by
  refine ⟨?_, rfl, ?_⟩
  · intro t hist h
    unfold analyze_stock_for_signal
    simp [h]
  · intro s50 s200
    cases s50 <;> cases s200 <;> rfl

/-- Witness for `undefined_rsi_policy` on a 30-bar history and concrete
SMA values. -/
theorem undefined_rsi_policy_witness :
    analyze_stock_for_signal "HM-B.ST" (.ok shortBars) = none ∧
    rsiHealthy none = false ∧
    portfolioSignalOf none (some 1) (some 2) =
      portfolioSignalOf (some 50) (some 1) (some 2) :=
  ⟨undefined_rsi_policy.1 "HM-B.ST" shortBars (by decide),
   undefined_rsi_policy.2.1,
   undefined_rsi_policy.2.2 (some 1) (some 2)⟩

/-- Claim C5, counterexample: a 30-bar history (insufficient for the 200-bar
warm-up) makes the screener evaluator return `None` — the very same value it
returns when the data fetch raises — so the caller cannot distinguish an
insufficient-history failure from any other error cause; no
`InsufficientHistory` outcome exists. -/
theorem insufficient_history_indistinct :
    analyze_stock_for_signal "VOLV-B.ST" (.ok shortBars) = none ∧
    analyze_stock_for_signal "VOLV-B.ST" FetchResult.err = none := by
  constructor <;> decide

/-- Claim C5, amended: the evaluators do fail on histories shorter than
their warm-up (200 bars for the screener, 50 for the swing scanner) rather
than succeed, but the failure value is the indistinct `None` shared with
data-fetch errors and low scores — not a distinguishable
`InsufficientHistory` error. -/
theorem insufficient_history_yields_none :
    (∀ (t : String) (hist : List Bar), hist.length < 200 →
        analyze_stock_for_signal t (.ok hist) = none) ∧
    (∀ t : String, analyze_stock_for_signal t FetchResult.err = none) ∧
    (∀ (t : String) (hist : List Bar), hist.length < 50 →
        analyze_market_data t hist = none) := by
  refine ⟨?_, fun t => rfl, ?_⟩
  · intro t hist h
    unfold analyze_stock_for_signal
    simp [h]
  · intro t hist h
    unfold analyze_market_data
    simp [h]

/-- Witness for `insufficient_history_yields_none` on the 30-bar history. -/
theorem insufficient_history_yields_none_witness :
    analyze_stock_for_signal "AZN.ST" (.ok shortBars) = none ∧
    analyze_market_data "AZN.ST" shortBars = none :=
  ⟨insufficient_history_yields_none.1 "AZN.ST" shortBars (by decide),
   insufficient_history_yields_none.2.2 "AZN.ST" shortBars (by decide)⟩

/-- Claim C6: a per-instrument failure (whatever its cause) never aborts the
scan — the failing instrument is silently dropped and the ranked output over
the remaining instruments is unchanged — and the result list has exactly one
entry per instrument whose evaluation succeeded. -/
theorem scan_isolates_failures :
    (∀ (xs ys : List (String × FetchResult)) (t : String) (b : FetchResult),
        analyze_stock_for_signal t b = none →
        runScan (xs ++ (t, b) :: ys) = runScan (xs ++ ys)) ∧
    (∀ inputs : List (String × FetchResult),
        (runScan inputs).length =
          inputs.countP (fun p => (analyze_stock_for_signal p.1 p.2).isSome)) := by
  constructor
  · intro xs ys t b h
    unfold runScan
    rw [List.filterMap_append, List.filterMap_append]
    simp [List.filterMap_cons, h]
  · intro inputs
    unfold runScan
    rw [sortRanked_length, length_filterMap_eq_countP]

/-- Witness for `scan_isolates_failures`: a three-instrument scan where the
middle instrument has a 30-bar history produces the same ranked output as
the two-instrument scan without it. -/
theorem scan_isolates_failures_witness :
    runScan [("ABB.ST", FetchResult.err), ("SHORT.ST", FetchResult.ok shortBars),
        ("EVO.ST", FetchResult.err)] =
      runScan [("ABB.ST", FetchResult.err), ("EVO.ST", FetchResult.err)] :=
  scan_isolates_failures.1 [("ABB.ST", FetchResult.err)] [("EVO.ST", FetchResult.err)]
    "SHORT.ST" (FetchResult.ok shortBars) (by decide)

/-- Claim C7, counterexample: the swing scanner's output can contain an
entry far below the claimed minimum score floor of 3: on fifty strictly
declining bars only the oversold-bounce factor fires, yet the entry is
returned and ranked with score 1. -/
theorem swing_scan_below_floor :
    (runProbabilityScan [("EVO.ST", swingCexBars)]).map (fun e => e.score) = [1] := by
  decide

/-- Claim C7, amended: the AI screener's output is sorted by score
descending and every entry clears the floor of 3, but ties are kept in
input order (its sort key has no secondary component); the swing scanner's
output is sorted lexicographically by (score, weekly_potential) descending,
but it applies no minimum-score floor. -/
theorem scan_ranking_policy :
    (∀ inputs : List (String × FetchResult),
        List.Pairwise (fun a b : ScanEntry => b.score ≤ a.score) (runScan inputs)) ∧
    (∀ inputs : List (String × FetchResult),
        (runScan inputs).all (fun e => decide (3 ≤ e.score)) = true) ∧
    (∀ inputs : List (String × List Bar),
        List.Pairwise (fun a b : SwingEntry => keyGE (swingKey a) (swingKey b))
          (runProbabilityScan inputs)) := by
  refine ⟨?_, ?_, ?_⟩
  · intro inputs
    have h := sortRanked_pairwise scanKey
      (inputs.filterMap (fun p => analyze_stock_for_signal p.1 p.2))
    refine List.Pairwise.imp ?_ h
    intro a b hk
    rcases hk with hk | ⟨hk, _⟩
    · exact le_of_lt hk
    · exact le_of_eq hk.symm
  · intro inputs
    rw [List.all_eq_true]
    intro e he
    unfold runScan at he
    rw [mem_sortRanked] at he
    obtain ⟨p, _, hp⟩ := List.mem_filterMap.mp he
    exact decide_eq_true (analyze_score_ge hp)
  · intro inputs
    exact sortRanked_pairwise swingKey _

/-- Claim C8, counterexample: the swing result's risk levels are produced by
bare multiplication with no validation: for the non-positive price `-1` the
computation still yields levels (no `InvalidRiskInputs` failure exists
anywhere in the code), and the claimed guarantee `stop < price` fails there. -/
theorem risk_levels_no_validation :
    riskLevels (-1) = (-(21/20), -(97/100)) ∧
    ¬((riskLevels (-1)).2 < -1) := by
  constructor
  · norm_num [riskLevels]
  · norm_num [riskLevels]

/-- Claim C8, amended: with the fixed-percentage policy
(`target = price * 1.05`, `stop = price * 0.97`) every positive entry price
satisfies `stop < price < target`; there is no `InvalidRiskInputs` failure —
the calculator produces levels for any price, and for non-positive prices
the bracket guarantee does not hold. -/
theorem risk_levels_bracket_price (p : ℚ) (h : 0 < p) :
    (riskLevels p).2 < p ∧ p < (riskLevels p).1 := by
  unfold riskLevels
  constructor
  · nlinarith
  · nlinarith

/-- Witness for `risk_levels_bracket_price` at price 100. -/
theorem risk_levels_bracket_price_witness :
    (riskLevels 100).2 < 100 ∧ (100:ℚ) < (riskLevels 100).1 :=
  risk_levels_bracket_price 100 (by norm_num)

/-- Claim C9, counterexample: on fifteen identical bars — where the
intended Wilder arithmetic would give `+DI = -DI = 0`, the zero DI sum the
claim addresses — the program leaves `+DI`, `-DI`, `dx` and the `ADX`
column NaN (undefined) at the latest bar: `pd.Series(np.where(...))`
carries a fresh `RangeIndex` while `atr` keeps the history's
`DatetimeIndex`, so the label-aligned divisions never have both operands.
The ADX computation therefore yields NaN there, not the claimed defined
neutral value 0 (nothing is raised — the definitions are total). -/
theorem adx_nan_not_neutral :
    pdiAt flatBars (.date 14) = none ∧ pdiAt flatBars (.pos 14) = none ∧
    mdiAt flatBars (.date 14) = none ∧ mdiAt flatBars (.pos 14) = none ∧
    dxAt flatBars (.date 14) = none ∧ adxColumnAt flatBars 14 = none := by
  decide

/-- Claim C9, amended: `calculate_adx` never raises, but it also never
returns a defined neutral value: the fresh `RangeIndex` of
`pd.Series(np.where(...))` and the `DatetimeIndex` of `atr` share no label,
so the aligned divisions make `plus_di` and `minus_di` NaN at every label
of the union index; `dx` and the `ADX` column are NaN everywhere — in
particular at indices where the DI sum would be 0 — and the undefined value
merely fails the `ADX > 25` trend-strength comparison. -/
theorem adx_never_defined (bars : List Bar) (lab : SeriesLabel) (i : ℕ) :
    pdiAt bars lab = none ∧ mdiAt bars lab = none ∧ dxAt bars lab = none ∧
    adxColumnAt bars i = none ∧ oGT (adxColumnAt bars i) (some 25) = false := by
  obtain ⟨hp, hm, hd⟩ := dx_all_nan bars lab
  have hc : adxColumnAt bars i = none := by
    unfold adxColumnAt
    split_ifs with h
    · rfl
    · have hdx : ∀ k, dxAt bars (SeriesLabel.date (i - k)) = none :=
        fun k => (dx_all_nan bars (.date (i - k))).2.2
      simp only [hdx]
      rfl
  exact ⟨hp, hm, hd, hc, by rw [hc]; rfl⟩

/-- Claim C10: the portfolio total equals the sum of `price * qty` over
exactly the rows whose symbol maps to a known price; rows with an unknown
price contribute nothing and cause no error, and the total is 0 when no row
has a known price. -/
theorem compute_portfolio_total (holdings : List Holding) (prices : String → Option ℚ) :
    (compute_portfolio holdings prices).2 =
      (holdings.filterMap (fun h => (prices h.symbol).map (fun p => p * h.qty))).sum ∧
    ((∀ h ∈ holdings, prices h.symbol = none) →
      (compute_portfolio holdings prices).2 = 0) := by
  have key : ∀ hs : List Holding,
      (compute_portfolio hs prices).2 =
        (hs.filterMap (fun h => (prices h.symbol).map (fun p => p * h.qty))).sum := by
    intro hs
    induction hs with
    | nil => rfl
    | cons h hsTail ih =>
      unfold compute_portfolio at ih ⊢
      dsimp only at ih ⊢
      rw [List.map_cons, List.map_cons, List.filterMap_cons, List.filterMap_cons]
      cases hp : prices h.symbol with
      | none => simpa [hp] using ih
      | some v => simpa [hp] using ih
  refine ⟨key holdings, ?_⟩
  intro hall
  rw [key holdings]
  have : holdings.filterMap (fun h => (prices h.symbol).map (fun p => p * h.qty)) = [] := by
    rw [List.filterMap_eq_nil_iff]
    intro h hh
    rw [hall h hh]
    rfl
  rw [this]
  rfl

/-- Witness for `compute_portfolio_total`: a one-row holdings table whose
symbol has no known price totals 0. -/
theorem compute_portfolio_total_witness :
    (compute_portfolio [⟨"AAPL", 2⟩] (fun _ => none)).2 = 0 :=
  (compute_portfolio_total [⟨"AAPL", 2⟩] (fun _ => none)).2 (fun _ _ => rfl)
